import Mathlib

/-!
Verification of the semantica task-engine job lifecycle core.

Shallow embedding of the Rust sources:
- `src/crates/core/src/domain/job.rs` (Job, JobState, ExecutionMode)
- `src/crates/core/src/application/retry.rs` (RetryPolicy)
- `src/crates/core/src/application/worker/mod.rs` (outcome handling)
- `src/crates/core/src/application/scheduler.rs` (is_ready, is_charging)
- `src/crates/core/src/application/dev_task/enqueue.rs` (validation, enqueue)
- `src/crates/infra-sqlite/src/job_repository.rs` (pop_next, update_state, ...)
- `src/crates/infra-sqlite/src/transaction.rs` (transactional insert / supersede)

Machine integers (i32/i64) are modelled as `Int` (all operations used by the
code stay far from the word boundaries except where noted, e.g. the wrapping
`u32` sum in the retry jitter, which is modelled with an explicit `% 2^32`).
Rust `f64` values (`backoff_factor`, CPU percentages) are modelled as exact
rationals `ℚ`. JSON values are modelled by the inductive `Json`; the
serde round-trip `Value -> String -> Value` used by the store is modelled as
the identity on `Json` (serde_json's serialization is lossless on values).
-/

namespace Semantica

/-- JSON values (model of `serde_json::Value`). Numbers are modelled as
integers; the number representation is irrelevant to every claim below. -/
inductive Json where
  | null : Json
  | bool (b : Bool) : Json
  | num (n : Int) : Json
  | str (s : String) : Json
  | arr (items : List Json) : Json
  | obj (fields : List (String × Json)) : Json
deriving Repr

/-- Job states, from `domain/job.rs` (`enum JobState`). -/
inductive JobState where
  | queued | running | done | failed | superseded | cancelled | requeued
deriving DecidableEq, Repr

/-- Display serialization of `JobState` (`impl Display for JobState`). -/
def JobState.display : JobState → String
  | .queued => "QUEUED"
  | .running => "RUNNING"
  | .done => "DONE"
  | .failed => "FAILED"
  | .superseded => "SUPERSEDED"
  | .cancelled => "CANCELLED"
  | .requeued => "REQUEUED"

/-- Execution modes, from `domain/job.rs` (`enum ExecutionMode`). -/
inductive ExecutionMode where
  | inProcess | subprocess
deriving DecidableEq, Repr

/-- Display serialization of `ExecutionMode`. -/
def ExecutionMode.display : ExecutionMode → String
  | .inProcess => "IN_PROCESS"
  | .subprocess => "SUBPROCESS"

/-- The Job entity, from `domain/job.rs` (`struct Job`), with all Phase 1-4
fields. -/
structure Job where
  id : String
  queue : String
  job_type : String
  subject_key : String
  generation : Int
  priority : Int
  state : JobState
  created_at : Int
  started_at : Option Int
  finished_at : Option Int
  payload : Json
  log_path : Option String
  execution_mode : Option ExecutionMode
  pid : Option Int
  env_vars : Option Json
  attempts : Int
  max_attempts : Int
  backoff_factor : ℚ
  deadline : Option Int
  ttl_ms : Option Int
  trace_id : Option String
  schedule_at : Option Int
  wait_for_idle : Bool
  require_charging : Bool
  wait_for_event : Option String
  user_tag : Option String
  parent_job_id : Option String
  chain_group_id : Option String
  result_summary : Option String
  artifacts : Option String
deriving Repr

/-- Constructor `Job::new` from `domain/job.rs`: Phase 2-4 fields take the
documented defaults. -/
def Job.new (id : String) (created_at : Int) (queue job_type subject_key : String)
    (generation : Int) (payload : Json) : Job where
  id := id
  queue := queue
  job_type := job_type
  subject_key := subject_key
  generation := generation
  priority := 0
  state := .queued
  created_at := created_at
  started_at := none
  finished_at := none
  payload := payload
  log_path := none
  execution_mode := some .inProcess
  pid := none
  env_vars := none
  attempts := 0
  max_attempts := 3
  backoff_factor := 2
  deadline := none
  ttl_ms := none
  trace_id := none
  schedule_at := none
  wait_for_idle := false
  require_charging := false
  wait_for_event := none
  user_tag := none
  parent_job_id := none
  chain_group_id := none
  result_summary := none
  artifacts := none

/-- Domain error from `domain/error.rs`, as used by `Job::start`/`complete`. -/
inductive DomainError where
  | invalidStateTransition (src dst : String)
deriving DecidableEq, Repr

/-- Method `Job::complete` from `domain/job.rs`: DONE transition, guarded on
the current state being RUNNING. -/
def Job.complete (job : Job) (now_millis : Int) : Except DomainError Job :=
  if job.state ≠ .running then
    .error (.invalidStateTransition job.state.display "DONE")
  else
    .ok { job with state := .done, finished_at := some now_millis }

/-- Method `Job::fail` from `domain/job.rs`. -/
def Job.fail (job : Job) (now_millis : Int) : Job :=
  { job with state := .failed, finished_at := some now_millis }

/-! ## Retry policy (`application/retry.rs`) -/

/-- Retry decision result (`enum RetryDecision`). -/
inductive RetryDecision where
  | retry (delay_ms : Int)
  | failed
deriving DecidableEq, Repr

/-- Rust `f64 as i64` conversion: truncation toward zero (saturation at the
i64 bounds is irrelevant at the magnitudes involved and is not modelled). -/
def rustTruncQ (q : ℚ) : Int :=
  if 0 ≤ q then ⌊q⌋ else -⌊-q⌋

/-- Rust `f64::powi` with an `i32` exponent: reciprocal for negative
exponents, modelled over `ℚ`. -/
def rustPowi (q : ℚ) (n : Int) : ℚ :=
  if 0 ≤ n then q ^ n.toNat else (q ^ (-n).toNat)⁻¹

/-- Jitter seed from `should_retry`:
`job.id.chars().map(|c| c as u32).sum::<u32>()` — wrapping u32 sum of the
character code points. -/
def jitterSeed (id : String) : Nat :=
  id.data.foldl (fun a c => (a + c.toNat) % 4294967296) 0

/-- Jitter factor from `should_retry`:
`0.9 + ((jitter_seed % 21) as f64 / 100.0)`, exact over `ℚ`. -/
def jitterFactor (id : String) : ℚ :=
  9 / 10 + ((jitterSeed id % 21 : ℕ) : ℚ) / 100

/-- Function `RetryPolicy::should_retry` (`retry.rs` lines 66-98); the
policy's `base_delay_ms` field is passed explicitly. -/
def should_retry (base_delay_ms : Int) (job : Job) : RetryDecision :=
  if job.attempts ≥ job.max_attempts then
    .failed
  else
    let base := (base_delay_ms : ℚ) * rustPowi job.backoff_factor job.attempts
    let delay_ms := rustTruncQ (base * jitterFactor job.id)
    .retry delay_ms

/-- Function `RetryPolicy::prepare_for_retry` (`retry.rs` lines 106-117). -/
def prepare_for_retry (job : Job) : Job :=
  { job with attempts := job.attempts + 1, state := .queued,
             started_at := none, pid := none }

/-- Function `RetryPolicy::is_deadline_exceeded` (`retry.rs` lines 122-136);
the injected clock value is passed as `now`. -/
def is_deadline_exceeded (now : Int) (job : Job) : Bool :=
  match job.deadline with
  | some deadline => now > deadline
  | none => false

/-- Function `RetryPolicy::is_ttl_exceeded` (`retry.rs` lines 141-157). -/
def is_ttl_exceeded (now : Int) (job : Job) : Bool :=
  match job.ttl_ms with
  | some ttl_ms => now - job.created_at > ttl_ms
  | none => false

/-! ## Worker outcome handling (`application/worker/mod.rs`) -/

/-- Outcome of the isolated execution task awaited by the worker
(`handle.await` in `process_next_job`): `Ok(Ok(_))`, `Ok(Err(_))`, or a
`JoinError` that is a panic or a cancellation. -/
inductive ExecOutcome where
  | success
  | gracefulError
  | panicked
  | cancelled
deriving DecidableEq, Repr

/-- Outcome classification of `Worker::process_next_job`
(`worker/mod.rs` lines 179-221): the job record the worker writes back with
`update` after execution. Success calls `job.complete(now)`; a graceful
failure consults `should_retry` and either prepares a retry or calls
`job.fail(now)`; a panic or host-side cancellation calls `job.fail(now)`.
No other field of the popped job is consulted on this path — in particular
neither `is_deadline_exceeded` nor `is_ttl_exceeded` is called anywhere in
`process_next_job`. -/
def process_outcome (base_delay_ms : Int) (now : Int) (job : Job)
    (outcome : ExecOutcome) : Except DomainError Job :=
  match outcome with
  | .success => job.complete now
  | .gracefulError =>
    match should_retry base_delay_ms job with
    | .retry _delay_ms => .ok (prepare_for_retry job)
    | .failed => .ok (job.fail now)
  | .panicked => .ok (job.fail now)
  | .cancelled => .ok (job.fail now)

/-! ## Scheduler gate (`application/scheduler.rs`)

The probe and platform reads performed by `is_charging` (pmset output on
macOS, `/sys/class/power_supply` contents on Linux) are passed in as data:
`PowerPlatform` carries exactly the values the function would read. -/

/-- Result of reading one directory entry of `/sys/class/power_supply`:
contents of its `type`, `online` and `capacity` files (`none` when the read
fails, e.g. the file is absent). -/
structure PowerSupplyEntry where
  typeContent : Option String
  onlineContent : Option String
  capacityContent : Option String

/-- The platform-dependent inputs of `Scheduler::is_charging`: the three
`cfg(target_os)` compilations of the function. `macos` carries the captured
stdout of `pmset -g batt` (`none` when the command fails), `linux` the
power-supply directory entries. -/
inductive PowerPlatform where
  | macos (pmset : Option String)
  | linux (entries : List PowerSupplyEntry)
  | other

/-- Rust `str::lines`: split on newline, dropping a final empty segment and
stripping a trailing carriage return from each line. -/
def rustLines (s : String) : List String :=
  let parts := s.split (· = '\n')
  let parts := if parts.getLast? = some "" then parts.dropLast else parts
  parts.map (fun line =>
    if line.endsWith "\r" then line.dropRight 1 else line)

/-- Rust `str::split_whitespace().last()`: the last maximal run of
non-whitespace characters, if any. -/
def lastWhitespaceToken (s : String) : Option String :=
  ((s.split Char.isWhitespace).filter (· ≠ "")).getLast?

/-- Rust `str::parse::<i32>()`: optional sign, one or more ASCII digits,
rejecting values outside the i32 range. -/
def parseI32 (s : String) : Option Int :=
  let core : Int × List Char :=
    match s.data with
    | '+' :: rest => (1, rest)
    | '-' :: rest => (-1, rest)
    | chars => (1, chars)
  match core with
  | (sign, digits) =>
    if digits.isEmpty then none
    else if digits.all Char.isDigit then
      let v : Int := sign * ((digits.foldl (fun a c => a * 10 + (c.toNat - '0'.toNat)) 0 : Nat) : Int)
      if v < -2147483648 ∨ v > 2147483647 then none else some v
    else none

/-- Substring containment, the model of Rust `str::contains(&str)`. -/
def containsSubstr (s pat : String) : Bool :=
  (List.range (s.data.length + 1)).any (fun i => pat.data.isPrefixOf (s.data.drop i))

/-- Function `Scheduler::is_charging` (`scheduler.rs` lines 98-165), by
target platform. On macOS: true when the pmset output mentions "AC Power",
else the battery percentage parsed from the second line must be ≥ 80; any
parse failure falls through to false. On Linux: true when some power-supply
entry is a Mains adapter that is online, or some entry reports a capacity
≥ 80; otherwise false — including when there are no entries at all. On every
other platform: true. -/
def is_charging (p : PowerPlatform) : Bool :=
  match p with
  | .macos pmset =>
    match pmset with
    | some stdout =>
      if containsSubstr stdout "AC Power" then true
      else
        match (rustLines stdout).get? 1 with
        | some line =>
          let percentStr := String.mk (line.data.takeWhile (· ≠ '%'))
          match lastWhitespaceToken percentStr with
          | some numStr =>
            match parseI32 numStr with
            | some percent => percent ≥ 80
            | none => false
          | none => false
        | none => false
    | none => false
  | .linux entries =>
    if entries.any (fun e =>
        match e.typeContent with
        | some typeContent =>
          typeContent.trim = "Mains" &&
            (match e.onlineContent with
             | some online => online.trim = "1"
             | none => false)
        | none => false) then
      true
    else
      entries.any (fun e =>
        match e.capacityContent with
        | some capacity =>
          match parseI32 capacity.trim with
          | some percent => percent ≥ 80
          | none => false
        | none => false)
  | .other => true

/-- Constant `IDLE_CPU_THRESHOLD` from `worker/constants.rs` (30%). -/
def IDLE_CPU_THRESHOLD : ℚ := 30

/-- Function `Scheduler::is_system_idle` (`scheduler.rs` lines 85-90): the
probe's sampled CPU usage is below the idle threshold. -/
def is_system_idle (cpu_usage_percent : ℚ) : Bool :=
  cpu_usage_percent < IDLE_CPU_THRESHOLD

/-- Function `Scheduler::is_ready` (`scheduler.rs` lines 32-82). The injected
clock (`now`), the probe sample (`cpu_usage_percent`) and the platform power
inputs are passed as data. -/
def is_ready (now : Int) (cpu_usage_percent : ℚ) (power : PowerPlatform)
    (job : Job) : Bool :=
  if (match job.schedule_at with
      | some schedule_at => decide (now < schedule_at)
      | none => false) then false
  else if job.wait_for_idle && !is_system_idle cpu_usage_percent then false
  else if job.require_charging && !is_charging power then false
  else if job.wait_for_event.isSome then false
  else true

/-! ## Enqueue validation (`application/dev_task/enqueue.rs`) -/

/-- Application error kinds from `core/src/error.rs`, as far as the claims
need them. -/
inductive AppError where
  | validation (msg : String)
  | notFound (msg : String)
  | invalidState (msg : String)
  | database (msg : String)
deriving DecidableEq, Repr

/-- Enqueue request (`struct EnqueueRequest`). -/
structure EnqueueRequest where
  job_type : String
  queue : String
  subject_key : String
  payload : Json
  priority : Int
deriving Repr

/-- Validation constant `MAX_QUEUE_NAME_LEN` (enqueue.rs line 78). -/
def MAX_QUEUE_NAME_LEN : Nat := 64

/-- Validation constant `MAX_JOB_TYPE_LEN`. -/
def MAX_JOB_TYPE_LEN : Nat := 128

/-- Validation constant `MAX_SUBJECT_KEY_LEN`. -/
def MAX_SUBJECT_KEY_LEN : Nat := 512

/-- Validation constant `MIN_PRIORITY`. -/
def MIN_PRIORITY : Int := -100

/-- Validation constant `MAX_PRIORITY`. -/
def MAX_PRIORITY : Int := 100

/-- Validation constant `MAX_PAYLOAD_DEPTH`. -/
def MAX_PAYLOAD_DEPTH : Nat := 32

/-- Rust `String::len`: the UTF-8 byte length (not the character count — the
source comment at enqueue.rs line 96 claiming otherwise is wrong; the two
agree on ASCII strings). -/
def rustLen (s : String) : Nat :=
  s.data.foldl (fun n c => n + c.utf8Size) 0

/-- Rust `char::is_alphanumeric`. The Rust function is the full Unicode
classifier; this model is its restriction to ASCII, on which it is exact
(`A-Za-z0-9`). Theorems relying on it restrict the strings involved to
ASCII. -/
def rustIsAlphanumeric (c : Char) : Bool :=
  c.isAlphanum

mutual

/-- Inner function `check_depth` of `validate_payload_complexity`
(enqueue.rs lines 163-186): `true` means the depth check passed. -/
def checkDepth : Json → Nat → Bool
  | v, currentDepth =>
    if currentDepth > MAX_PAYLOAD_DEPTH then false
    else
      match v with
      | .arr items => checkDepthList items (currentDepth + 1)
      | .obj fields => checkDepthFields fields (currentDepth + 1)
      | _ => true

/-- Depth check iterated over the items of a JSON array. -/
def checkDepthList : List Json → Nat → Bool
  | [], _ => true
  | v :: rest, d => checkDepth v d && checkDepthList rest d

/-- Depth check iterated over the values of a JSON object. -/
def checkDepthFields : List (String × Json) → Nat → Bool
  | [], _ => true
  | (_, v) :: rest, d => checkDepth v d && checkDepthFields rest d

end

/-- Function `validate_payload_complexity` (enqueue.rs lines 160-189). -/
def validate_payload_complexity (value : Json) : Except AppError Unit :=
  if checkDepth value 0 then .ok ()
  else .error (.validation s!"Payload too deeply nested (max depth: {MAX_PAYLOAD_DEPTH}, exceeded)")

/-- Function `validate_request` (enqueue.rs lines 92-154), with the checks in
source order and the source's error messages. -/
def validate_request (req : EnqueueRequest) : Except AppError Unit :=
  if req.queue = "" then
    .error (.validation "Queue name cannot be empty")
  else if rustLen req.queue > MAX_QUEUE_NAME_LEN then
    .error (.validation s!"Queue name too long (max {MAX_QUEUE_NAME_LEN} chars, got {rustLen req.queue})")
  else if ¬ (req.queue.data.all fun c => rustIsAlphanumeric c || c = '_' || c = '-') then
    .error (.validation "Queue name must be alphanumeric with _ or -")
  else if req.job_type = "" then
    .error (.validation "Job type cannot be empty")
  else if rustLen req.job_type > MAX_JOB_TYPE_LEN then
    .error (.validation s!"Job type too long (max {MAX_JOB_TYPE_LEN} chars, got {rustLen req.job_type})")
  else if req.subject_key = "" then
    .error (.validation "Subject key cannot be empty")
  else if rustLen req.subject_key > MAX_SUBJECT_KEY_LEN then
    .error (.validation s!"Subject key too long (max {MAX_SUBJECT_KEY_LEN} chars, got {rustLen req.subject_key})")
  else
    match validate_payload_complexity req.payload with
    | .error e => .error e
    | .ok () =>
      if req.priority < MIN_PRIORITY ∨ req.priority > MAX_PRIORITY then
        .error (.validation s!"Priority out of range (must be between {MIN_PRIORITY} and {MAX_PRIORITY}, got {req.priority})")
      else .ok ()

/-! ## Store (`infra-sqlite/src/job_repository.rs` and `transaction.rs`)

The SQLite database is modelled as the list of job rows plus the `subjects`
table (an association list `subject_key ↦ latest_generation`). Each store
operation of the source is one function on this state; `pop_next`, being a
single conditional `UPDATE ... RETURNING` statement, is a single atomic
step, which is how SQLite executes it. Job ids are a primary key in the
schema; theorems needing row identity state it. -/

/-- The persistent state: the `jobs` table and the `subjects` table. -/
structure Store where
  jobs : List Job
  subjects : List (String × Int)

/-- Lookup of a subject's counter (`SELECT latest_generation FROM subjects
WHERE subject_key = ?`). -/
def getSubjectGen (s : Store) (key : String) : Option Int :=
  (s.subjects.find? (fun p => p.1 = key)).map (·.2)

/-- Function `get_latest_generation` (transaction.rs lines 42-62 and
job_repository.rs lines 304-324): returns the current counter, inserting a
fresh row at 0 when the subject is absent. -/
def get_latest_generation (key : String) (s : Store) : Int × Store :=
  match s.subjects.find? (fun p => p.1 = key) with
  | some p => (p.2, s)
  | none => (0, { s with subjects := s.subjects ++ [(key, 0)] })

/-- Function `mark_superseded` (transaction.rs lines 109-139 and
job_repository.rs lines 326-356): supersedes every still-QUEUED row of the
subject below the given generation, stamping `finished_at = now`, then sets
the subject's counter to `below_generation`. -/
def mark_superseded (key : String) (below_generation : Int) (now : Int)
    (s : Store) : Store :=
  { jobs := s.jobs.map (fun j =>
      if j.subject_key = key ∧ j.generation < below_generation ∧ j.state = .queued then
        { j with state := .superseded, finished_at := some now }
      else j),
    subjects := s.subjects.map (fun p => if p.1 = key then (p.1, below_generation) else p) }

/-- Row insertion (`INSERT INTO jobs ...`): appends the row. -/
def insertJob (job : Job) (s : Store) : Store :=
  { s with jobs := s.jobs ++ [job] }

/-- The enqueue use case `execute` (enqueue.rs lines 32-75): validation, then
one transaction running `get_latest_generation`, `insert`,
`mark_superseded`, `commit`. The injected id and clock values are passed as
`newId` and `now` (`created_at` uses the same clock read). -/
def executeEnqueue (req : EnqueueRequest) (newId : String) (now : Int)
    (s : Store) : Except AppError String × Store :=
  match validate_request req with
  | .error e => (.error e, s)
  | .ok () =>
    let gs := get_latest_generation req.subject_key s
    let latest_gen := gs.1
    let s1 := gs.2
    let new_gen := latest_gen + 1
    let job := { Job.new newId now req.queue req.job_type req.subject_key new_gen req.payload
                  with priority := req.priority }
    let s2 := insertJob job s1
    let s3 := mark_superseded req.subject_key new_gen now s2
    (.ok newId, s3)

/-- The terminal-state guard list of `update_state`
(job_repository.rs line 216): the SQL literal
`state NOT IN ('COMPLETED', 'FAILED', 'CANCELLED', 'SUPERSEDED')`.
Note the list names `COMPLETED`, a string `JobState::to_string` never
produces; the DONE state is not in the list. -/
def updateStateGuardList : List String :=
  ["COMPLETED", "FAILED", "CANCELLED", "SUPERSEDED"]

/-- Function `update_state` (job_repository.rs lines 203-246): a conditional
`UPDATE` of `state` and `finished_at`; when no row was affected it reports
`NotFound` for an absent id and `InvalidState` otherwise. -/
def update_state (id : String) (state : JobState) (finished_at : Option Int)
    (s : Store) : Except AppError Unit × Store :=
  let hit : Job → Bool := fun j =>
    j.id = id ∧ ¬ updateStateGuardList.contains j.state.display
  let affected := (s.jobs.filter hit).length
  if affected = 0 then
    match s.jobs.find? (fun j => j.id = id) with
    | none => (.error (.notFound s!"Job {id} not found"), s)
    | some current =>
      (.error (.invalidState s!"Cannot update job {id} from {current.state.display} to {state.display}"), s)
  else
    (.ok (), { s with jobs := s.jobs.map (fun j =>
        if hit j then { j with state := state, finished_at := finished_at } else j) })

/-- Sort key of the `pop_next` selection:
`ORDER BY priority DESC, created_at ASC, id ASC` (TEXT ids compare
byte-wise, which for UTF-8 is code-point order). -/
def popKey (j : Job) : Lex (Int × Lex (Int × String)) :=
  toLex (-j.priority, toLex (j.created_at, j.id))

/-- The `MAX(generation)` subquery of `pop_next`
(`SELECT MAX(generation) FROM jobs WHERE subject_key = j.subject_key`) —
over all rows of the subject, regardless of state or queue. -/
def maxGenOfSubject (s : Store) (key : String) : Option Int :=
  ((s.jobs.filter (fun j => j.subject_key = key)).map (·.generation)).max?

/-- Eligibility filter of `pop_next`: `queue = q AND state = 'QUEUED'` and
the row's generation equals the subject's maximum generation in `jobs`. -/
def popEligible (s : Store) (q : String) (j : Job) : Bool :=
  j.queue = q ∧ j.state = .queued ∧ maxGenOfSubject s j.subject_key = some j.generation

/-- Function `pop_next` (job_repository.rs lines 265-302): one atomic
conditional `UPDATE ... RETURNING`: select the first eligible row in the
pop order, set it `RUNNING` with `started_at = now`, and return the
post-update snapshot; `none` when no row is eligible. -/
def pop_next (q : String) (now : Int) (s : Store) : Option Job × Store :=
  match (s.jobs.filter (popEligible s q)).argmin popKey with
  | none => (none, s)
  | some r =>
    let updated := { r with state := .running, started_at := some now }
    (some updated,
     { s with jobs := s.jobs.map (fun j => if j.id = r.id then { j with state := .running, started_at := some now } else j) })

/-! ## Row serialization (`JobRow`, the two INSERTs, and `into_job`)

`JobRow` mirrors the `struct JobRow` read back by `sqlx::query_as`. TEXT
columns holding serialized JSON (`payload`, `env_vars`) are modelled by the
JSON value they encode: `serde_json`'s `to_string`/`from_str` round-trip is
lossless on values, so the encode/decode pair is the identity on `Json`.
The encode/decode pairs the source implements itself (state and execution
mode strings, the 0/1 booleans) are modelled explicitly. -/

/-- A row of the `jobs` table as read back (`struct JobRow`,
job_repository.rs lines 399-438). -/
structure JobRow where
  id : String
  queue : String
  job_type : String
  subject_key : String
  generation : Int
  state : String
  priority : Int
  payload : Json
  log_path : Option String
  created_at : Int
  started_at : Option Int
  finished_at : Option Int
  execution_mode : Option String
  pid : Option Int
  env_vars : Option Json
  attempts : Int
  max_attempts : Int
  backoff_factor : ℚ
  deadline : Option Int
  ttl_ms : Option Int
  trace_id : Option String
  schedule_at : Option Int
  wait_for_idle : Int
  require_charging : Int
  wait_for_event : Option String
  user_tag : Option String
  parent_job_id : Option String
  chain_group_id : Option String
  result_summary : Option String
  artifacts : Option String
deriving Repr

/-- The row written by `JobRepository::insert`
(job_repository.rs lines 90-146): all 30 columns are bound from the job,
with `state`/`execution_mode` serialized to their display strings and the
two Phase 3 booleans as 0/1 integers. -/
def repoInsertRow (job : Job) : JobRow where
  id := job.id
  queue := job.queue
  job_type := job.job_type
  subject_key := job.subject_key
  generation := job.generation
  state := job.state.display
  priority := job.priority
  payload := job.payload
  log_path := job.log_path
  created_at := job.created_at
  started_at := job.started_at
  finished_at := job.finished_at
  execution_mode := job.execution_mode.map ExecutionMode.display
  pid := job.pid
  env_vars := job.env_vars
  attempts := job.attempts
  max_attempts := job.max_attempts
  backoff_factor := job.backoff_factor
  deadline := job.deadline
  ttl_ms := job.ttl_ms
  trace_id := job.trace_id
  schedule_at := job.schedule_at
  wait_for_idle := if job.wait_for_idle then 1 else 0
  require_charging := if job.require_charging then 1 else 0
  wait_for_event := job.wait_for_event
  user_tag := job.user_tag
  parent_job_id := job.parent_job_id
  chain_group_id := job.chain_group_id
  result_summary := job.result_summary
  artifacts := job.artifacts

/-- The row produced by the enqueue transaction's insert
(`JobRepositoryTransaction::insert`, transaction.rs lines 64-107): its
`INSERT` names only the 21 Phase 1 and Phase 2 columns, so the Phase 3 and
Phase 4 columns take their schema defaults. The migration SQL files are not
in the source tree; the defaults are modelled from the spec ("each version
adds columns with sensible defaults"): NULL for the optional columns and 0
(false) for the two boolean flags. -/
def txInsertRow (job : Job) : JobRow where
  id := job.id
  queue := job.queue
  job_type := job.job_type
  subject_key := job.subject_key
  generation := job.generation
  state := job.state.display
  priority := job.priority
  payload := job.payload
  log_path := job.log_path
  created_at := job.created_at
  started_at := job.started_at
  finished_at := job.finished_at
  execution_mode := job.execution_mode.map ExecutionMode.display
  pid := job.pid
  env_vars := job.env_vars
  attempts := job.attempts
  max_attempts := job.max_attempts
  backoff_factor := job.backoff_factor
  deadline := job.deadline
  ttl_ms := job.ttl_ms
  trace_id := job.trace_id
  schedule_at := none
  wait_for_idle := 0
  require_charging := 0
  wait_for_event := none
  user_tag := none
  parent_job_id := none
  chain_group_id := none
  result_summary := none
  artifacts := none

/-- Function `JobRow::into_job` (job_repository.rs lines 440-506): decodes
the state string (unknown strings fall back to FAILED), the execution-mode
string (unknown strings decode to `None`), and the 0/1 booleans. -/
def intoJob (r : JobRow) : Job where
  id := r.id
  queue := r.queue
  job_type := r.job_type
  subject_key := r.subject_key
  generation := r.generation
  priority := r.priority
  state :=
    match r.state with
    | "QUEUED" => .queued
    | "RUNNING" => .running
    | "DONE" => .done
    | "FAILED" => .failed
    | "SUPERSEDED" => .superseded
    | "CANCELLED" => .cancelled
    | "REQUEUED" => .requeued
    | _ => .failed
  created_at := r.created_at
  started_at := r.started_at
  finished_at := r.finished_at
  payload := r.payload
  log_path := r.log_path
  execution_mode :=
    r.execution_mode.bind (fun mode =>
      match mode with
      | "IN_PROCESS" => some .inProcess
      | "SUBPROCESS" => some .subprocess
      | _ => none)
  pid := r.pid
  env_vars := r.env_vars
  attempts := r.attempts
  max_attempts := r.max_attempts
  backoff_factor := r.backoff_factor
  deadline := r.deadline
  ttl_ms := r.ttl_ms
  trace_id := r.trace_id
  schedule_at := r.schedule_at
  wait_for_idle := r.wait_for_idle ≠ 0
  require_charging := r.require_charging ≠ 0
  wait_for_event := r.wait_for_event
  user_tag := r.user_tag
  parent_job_id := r.parent_job_id
  chain_group_id := r.chain_group_id
  result_summary := r.result_summary
  artifacts := r.artifacts

/-! ## JSON nesting height (the specification-side notion for the payload
depth check: a payload is "nested deeper than 32" when its height exceeds
32, where scalars and empty containers have height 0 and a container is one
deeper than its deepest child). -/

mutual

/-- Nesting height of a JSON value. -/
def jsonHeight : Json → Nat
  | .null => 0
  | .bool _ => 0
  | .num _ => 0
  | .str _ => 0
  | .arr items => jsonHeightList items
  | .obj fields => jsonHeightFields fields

/-- Height contribution of the items of an array: one more than the deepest
item. -/
def jsonHeightList : List Json → Nat
  | [] => 0
  | v :: rest => max (1 + jsonHeight v) (jsonHeightList rest)

/-- Height contribution of the values of an object. -/
def jsonHeightFields : List (String × Json) → Nat
  | [] => 0
  | (_, v) :: rest => max (1 + jsonHeight v) (jsonHeightFields rest)

end

/-! ## Concrete instances used by the theorems below -/

/-- An enqueue request whose `subject_key` contains a NUL character and
which is otherwise entirely valid. -/
def reqC6 : EnqueueRequest :=
  { job_type := "t", queue := "q", subject_key := "a\x00b", payload := .null, priority := 0 }

/-- An all-ASCII request that fails validation on priority 101. -/
def reqC6W : EnqueueRequest :=
  { job_type := "t", queue := "q", subject_key := "s", payload := .null, priority := 101 }

/-- The error message `validate_request` produces for priority 101. -/
def msgC6 : String :=
  "Priority out of range (must be between -100 and 100, got 101)"

/-- A queued job of subject "subj" at generation 1. -/
def jobGen1 : Job := Job.new "a" 0 "q" "t" "subj" 1 .null

/-- A DONE job of the same subject at generation 2 (a later submission that
already ran). -/
def jobGen2 : Job :=
  { Job.new "b" 1 "q" "t" "subj" 2 .null with state := .done, finished_at := some 2 }

/-- A store where the subjects counter (1) lags behind the maximum
generation in the jobs table (2). -/
def storeC2 : Store := { jobs := [jobGen1, jobGen2], subjects := [("subj", 1)] }

/-- A single queued job for the pop witness. -/
def jw : Job := Job.new "w1" 0 "wq" "t" "ws" 1 .null

/-- A store holding exactly `jw`. -/
def storeC2W : Store := { jobs := [jw], subjects := [("ws", 1)] }

/-- Two queued jobs of distinct subjects in the same queue. -/
def jobW1 : Job := Job.new "wa" 0 "q" "t" "sa" 1 .null

/-- Second queued job, created later. -/
def jobW2 : Job := Job.new "wb" 1 "q" "t" "sb" 1 .null

/-- A store with two poppable jobs. -/
def storeC10 : Store := { jobs := [jobW1, jobW2], subjects := [("sa", 1), ("sb", 1)] }

/-- A valid enqueue request for subject "s3". -/
def reqC3 : EnqueueRequest :=
  { job_type := "t", queue := "q", subject_key := "s3", payload := .null, priority := 0 }

/-- A freshly enqueued job (all `Job::new` defaults), id "ab". -/
def jobC7 : Job := Job.new "ab" 0 "q" "t" "s" 1 .null

/-- A job that has reached DONE. -/
def doneJob : Job :=
  { Job.new "j1" 0 "q" "t" "s" 1 .null with
    state := .done, started_at := some 1, finished_at := some 2 }

/-- A store holding exactly the DONE job. -/
def storeC1 : Store := { jobs := [doneJob], subjects := [("s", 1)] }

/-- A popped (RUNNING) job about to fail gracefully, no schedule_at. -/
def jobC4 : Job :=
  { Job.new "a" 0 "q" "t" "s" 1 .null with state := .running, started_at := some 10 }

/-- A popped (RUNNING) job whose deadline (50) has passed by `now = 100`. -/
def jobC5 : Job :=
  { Job.new "a5" 0 "q" "t" "s" 1 .null with
    state := .running, started_at := some 10, deadline := some 50 }

/-- A job requiring charging, with no other scheduling condition. -/
def jobC9 : Job := { Job.new "c9" 0 "q" "t" "s" 1 .null with require_charging := true }

/-- A job carrying a Phase 3 scheduling field (`schedule_at = 5`). -/
def jobC8 : Job := { Job.new "c8" 0 "q" "t" "s" 1 .null with schedule_at := some 5 }

/-- Projection of a job onto the 21 Phase 1/2 columns: the Phase 3/4 fields
replaced by the schema defaults (see `txInsertRow`). -/
def phase12Projection (job : Job) : Job :=
  { job with
    schedule_at := none, wait_for_idle := false, require_charging := false,
    wait_for_event := none, user_tag := none, parent_job_id := none,
    chain_group_id := none, result_summary := none, artifacts := none }

/-! ## Theorems -/

/-- Helper: the jitter factor always lies in `[0.9, 1.1]`. -/
theorem jitterFactor_mem (id : String) :
    9 / 10 ≤ jitterFactor id ∧ jitterFactor id ≤ 11 / 10 := by
  unfold jitterFactor
  have hk : (jitterSeed id % 21 : ℕ) ≤ 20 :=
    Nat.lt_succ_iff.mp (Nat.mod_lt _ (by norm_num))
  have hk' : ((jitterSeed id % 21 : ℕ) : ℚ) ≤ 20 := by exact_mod_cast hk
  constructor
  · have : (0 : ℚ) ≤ ((jitterSeed id % 21 : ℕ) : ℚ) / 100 := by positivity
    linarith
  · have : ((jitterSeed id % 21 : ℕ) : ℚ) / 100 ≤ 20 / 100 := by linarith
    linarith

/-- C7: `should_retry` returns `Failed` exactly when `attempts ≥
max_attempts` (so `max_attempts = 0` makes the first failure terminal);
otherwise it returns `Retry(delay_ms)` with
`delay_ms = base_delay_ms × backoff_factor^attempts × jitter` (truncated to
an integer by the `as i64` cast), where the jitter factor lies in
`[0.9, 1.1]` and is a deterministic function of `job.id` alone. -/
theorem should_retry_characterization (base_delay_ms : Int) (job : Job) :
    (should_retry base_delay_ms job = .failed ↔ job.max_attempts ≤ job.attempts)
    ∧ (job.attempts < job.max_attempts →
        should_retry base_delay_ms job =
          .retry (rustTruncQ ((base_delay_ms : ℚ) * rustPowi job.backoff_factor job.attempts
            * jitterFactor job.id))
        ∧ 9 / 10 ≤ jitterFactor job.id ∧ jitterFactor job.id ≤ 11 / 10)
    ∧ (∀ job2 : Job, job2.id = job.id → jitterFactor job2.id = jitterFactor job.id) := by
  refine ⟨?_, ?_, ?_⟩
  · by_cases h : job.max_attempts ≤ job.attempts <;>
      simp [should_retry, ge_iff_le, h]
  · intro h
    have hn : ¬ job.max_attempts ≤ job.attempts := not_le.mpr h
    refine ⟨by simp [should_retry, ge_iff_le, hn], jitterFactor_mem job.id⟩
  · intro job2 h
    rw [h]

/-- C7 witness: a fresh default job (attempts 0 < max_attempts 3, backoff 2,
base delay 1000, id "ab") retries with delay 960 ms (jitter 0.96). -/
theorem should_retry_characterization_witness :
    jobC7.attempts < jobC7.max_attempts ∧ should_retry 1000 jobC7 = .retry 960 := by
  have h : jobC7.attempts < jobC7.max_attempts := by norm_num [jobC7, Job.new]
  refine ⟨h, ?_⟩
  have heq := ((should_retry_characterization 1000 jobC7).2.1 h).1
  have e1 : jitterFactor jobC7.id = 96 / 100 := by
    have : jitterSeed jobC7.id = 195 := rfl
    rw [jitterFactor, this]
    norm_num
  have e2 : rustPowi jobC7.backoff_factor jobC7.attempts = 1 := by
    norm_num [jobC7, Job.new, rustPowi]
  rw [heq, e1, e2]
  have e3 : ((1000 : ℤ) : ℚ) * 1 * (96 / 100) = ((960 : ℤ) : ℚ) := by push_cast; norm_num
  rw [e3, rustTruncQ, if_pos (by positivity), Int.floor_intCast]

/-- C1: the claim says `update_state` refuses to change any job in a
terminal state, DONE included. In the code the terminal guard list of the
SQL statement names `COMPLETED` — a string `JobState::to_string` never
produces — instead of `DONE`, so a DONE job is updated: cancelling job "j1"
after it reached DONE succeeds and overwrites the row, where the claim (and
the code's own comment, "prevent race conditions (e.g., cancel after
completion)") requires an `InvalidState` refusal with the row unchanged. -/
theorem update_state_done_not_guarded :
    doneJob.state = .done
    ∧ (update_state "j1" .cancelled (some 5) storeC1).1 = .ok ()
    ∧ (update_state "j1" .cancelled (some 5) storeC1).2.jobs
        = [{ doneJob with state := .cancelled, finished_at := some 5 }] := by
  refine ⟨rfl, rfl, rfl⟩

/-- C4 counterexample: a RUNNING job (id "a", attempts 0 < max_attempts 3)
fails gracefully at `now = 100`; the retry policy answered
`Retry(1030)`, yet the record the worker writes back still has
`schedule_at = none`, not `now + delay` — the claim's
`schedule_at = now + delay` requeue does not happen. -/
theorem worker_retry_no_schedule_at_counterexample :
    should_retry 1000 jobC4 = .retry 1030
    ∧ process_outcome 1000 100 jobC4 .gracefulError = .ok (prepare_for_retry jobC4)
    ∧ (prepare_for_retry jobC4).schedule_at = none
    ∧ (prepare_for_retry jobC4).schedule_at ≠ some (100 + 1030) := by
  have h : jobC4.attempts < jobC4.max_attempts := by norm_num [jobC4, Job.new]
  have e1 : jitterFactor jobC4.id = 103 / 100 := by
    have : jitterSeed jobC4.id = 97 := rfl
    rw [jitterFactor, this]
    norm_num
  have e2 : rustPowi jobC4.backoff_factor jobC4.attempts = 1 := by
    norm_num [jobC4, Job.new, rustPowi]
  have hn : ¬ jobC4.max_attempts ≤ jobC4.attempts := not_le.mpr h
  have hsr : should_retry 1000 jobC4 = .retry 1030 := by
    rw [show should_retry 1000 jobC4
        = .retry (rustTruncQ ((1000 : ℚ) * rustPowi jobC4.backoff_factor jobC4.attempts
            * jitterFactor jobC4.id)) from by simp [should_retry, ge_iff_le, hn]]
    rw [e1, e2]
    have e3 : (1000 : ℚ) * 1 * (103 / 100) = ((1030 : ℤ) : ℚ) := by push_cast; norm_num
    rw [e3, rustTruncQ, if_pos (by positivity), Int.floor_intCast]
  refine ⟨hsr, ?_, rfl, by simp [prepare_for_retry, jobC4, Job.new]⟩
  simp [process_outcome, hsr]

/-- C4 amended: on a graceful failure answered with `Retry(delay)`, the
worker requeues via `prepare_for_retry` — attempts incremented, state
QUEUED, `started_at` and `pid` cleared — but the delay is only computed and
logged: `schedule_at` is left exactly as it was, and no other effective
not-before time is recorded. -/
theorem worker_retry_requeue_spec (base_delay_ms now : Int) (job : Job)
    (h : job.attempts < job.max_attempts) :
    process_outcome base_delay_ms now job .gracefulError = .ok (prepare_for_retry job)
    ∧ (prepare_for_retry job).attempts = job.attempts + 1
    ∧ (prepare_for_retry job).state = .queued
    ∧ (prepare_for_retry job).started_at = none
    ∧ (prepare_for_retry job).pid = none
    ∧ (prepare_for_retry job).schedule_at = job.schedule_at := by
  have hn : ¬ job.max_attempts ≤ job.attempts := not_le.mpr h
  refine ⟨?_, rfl, rfl, rfl, rfl, rfl⟩
  simp [process_outcome, should_retry, ge_iff_le, hn]

/-- C4 amended witness: the concrete RUNNING job jobC4 at `now = 100`. -/
theorem worker_retry_requeue_spec_witness :
    process_outcome 1000 100 jobC4 .gracefulError = .ok (prepare_for_retry jobC4)
    ∧ (prepare_for_retry jobC4).attempts = jobC4.attempts + 1
    ∧ (prepare_for_retry jobC4).state = .queued := by
  have h := worker_retry_requeue_spec 1000 100 jobC4 (by norm_num [jobC4, Job.new])
  exact ⟨h.1, h.2.1, h.2.2.1⟩

/-- C5 counterexample: job "a5" has `deadline = 50` and is processed at
`now = 100 > 50` (`is_deadline_exceeded` is true), yet when its execution
fails gracefully with attempts 0 < max_attempts 3 the worker takes the
Retry branch: the written record is QUEUED with attempts incremented to 1 —
not FAILED, and an attempt was consumed, contradicting the claim's
"failed immediately, without incrementing attempts". -/
theorem worker_ignores_deadline_counterexample :
    is_deadline_exceeded 100 jobC5 = true
    ∧ process_outcome 1000 100 jobC5 .gracefulError = .ok (prepare_for_retry jobC5)
    ∧ (prepare_for_retry jobC5).state = .queued
    ∧ (prepare_for_retry jobC5).state ≠ .failed
    ∧ (prepare_for_retry jobC5).attempts = jobC5.attempts + 1 := by
  have h : jobC5.attempts < jobC5.max_attempts := by norm_num [jobC5, Job.new]
  have hn : ¬ jobC5.max_attempts ≤ jobC5.attempts := not_le.mpr h
  refine ⟨rfl, ?_, rfl, by simp [prepare_for_retry], rfl⟩
  simp [process_outcome, should_retry, ge_iff_le, hn]

/-- C5 amended: `process_next_job` never consults the deadline or TTL.
`is_deadline_exceeded` (deadline set and now > deadline) and
`is_ttl_exceeded` (ttl set and now − created_at > ttl) exist on the retry
policy, but even when one of them holds, a gracefully failed job with
attempts < max_attempts is requeued through the Retry branch with attempts
incremented — it is not failed immediately. -/
theorem worker_deadline_ttl_not_consulted (base_delay_ms now : Int) (job : Job)
    (h : job.attempts < job.max_attempts)
    (hexp : is_deadline_exceeded now job = true ∨ is_ttl_exceeded now job = true) :
    process_outcome base_delay_ms now job .gracefulError = .ok (prepare_for_retry job)
    ∧ (prepare_for_retry job).state = .queued
    ∧ (prepare_for_retry job).attempts = job.attempts + 1
    ∧ (is_deadline_exceeded now job = true ↔ ∃ d, job.deadline = some d ∧ now > d)
    ∧ (is_ttl_exceeded now job = true ↔ ∃ t, job.ttl_ms = some t ∧ now - job.created_at > t) := by
  have hn : ¬ job.max_attempts ≤ job.attempts := not_le.mpr h
  refine ⟨?_, rfl, rfl, ?_, ?_⟩
  · simp [process_outcome, should_retry, ge_iff_le, hn]
  · unfold is_deadline_exceeded
    cases job.deadline <;> simp
  · unfold is_ttl_exceeded
    cases job.ttl_ms <;> simp

/-- C5 amended witness: the deadline-expired job jobC5 at `now = 100`. -/
theorem worker_deadline_ttl_not_consulted_witness :
    process_outcome 1000 100 jobC5 .gracefulError = .ok (prepare_for_retry jobC5)
    ∧ (prepare_for_retry jobC5).state = .queued := by
  have h := worker_deadline_ttl_not_consulted 1000 100 jobC5
    (by norm_num [jobC5, Job.new]) (Or.inl rfl)
  exact ⟨h.1, h.2.1⟩

/-- Helper: a chain of early-false ifs is the negated disjunction of its
conditions. -/
theorem if_chain_eq_not_or (c1 c2 c3 c4 : Bool) :
    (if c1 then false else if c2 then false else if c3 then false
     else if c4 then false else true)
    = !(c1 || c2 || c3 || c4) := by
  cases c1 <;> cases c2 <;> cases c3 <;> cases c4 <;> rfl

/-- C9 amended: `is_ready` returns false exactly when one of the four rules
(evaluated in source order, the first failing rule deciding) rejects:
`schedule_at` set with `now < schedule_at`; `wait_for_idle` with sampled CPU
≥ 30%; `require_charging` with `is_charging` false (on Linux: no online
Mains adapter and no power-supply entry with capacity ≥ 80 — in particular a
machine with no power-supply entries at all counts as not charging; true on
platforms other than macOS and Linux); or `wait_for_event` set. Otherwise it
returns true. -/
theorem is_ready_characterization (now : Int) (cpu_usage_percent : ℚ)
    (power : PowerPlatform) (job : Job) :
    is_ready now cpu_usage_percent power job = false ↔
      ((∃ t, job.schedule_at = some t ∧ now < t)
       ∨ (job.wait_for_idle = true ∧ IDLE_CPU_THRESHOLD ≤ cpu_usage_percent)
       ∨ (job.require_charging = true ∧ is_charging power = false)
       ∨ (∃ e, job.wait_for_event = some e)) := by
  unfold is_ready
  rw [if_chain_eq_not_or, Bool.not_eq_false']
  simp only [Bool.or_eq_true, or_assoc]
  refine or_congr ?_ (or_congr ?_ (or_congr ?_ ?_))
  · cases hs : job.schedule_at <;> simp [hs]
  · simp [Bool.and_eq_true, Bool.not_eq_true', is_system_idle, not_lt, decide_eq_true_iff]
  · simp [Bool.and_eq_true, Bool.not_eq_true']
  · simp [Option.isSome_iff_exists]

/-- C9 counterexample: on Linux with an empty `/sys/class/power_supply` (no
battery sensor at all), `is_charging` is false, so a `require_charging` job
with no other condition is not ready — where the claim's "charging assumed
true on platforms lacking a battery sensor" predicts ready. -/
theorem require_charging_no_sensor_counterexample :
    is_charging (.linux []) = false
    ∧ jobC9.schedule_at = none
    ∧ jobC9.wait_for_idle = false
    ∧ jobC9.wait_for_event = none
    ∧ is_ready 100 0 (.linux []) jobC9 = false := by
  exact ⟨rfl, rfl, rfl, rfl, rfl⟩

/-- C8 amended: a job written with `JobRepository::insert` and read back
through `JobRow::into_job` is structurally equal to the original on all
attributes; a job written with the enqueue transaction's insert reads back
as its Phase 1/2 projection — the 21 bound columns agree, while the Phase 3
scheduling fields and Phase 4 metadata fields come back as the schema
defaults. -/
theorem row_round_trip (job : Job) :
    intoJob (repoInsertRow job) = job
    ∧ intoJob (txInsertRow job) = phase12Projection job := by
  obtain ⟨id, queue, jt, sk, gen, prio, st, ca, sa, fa, pl, lp, em, pid, ev,
    att, ma, bf, dl, ttl, tid, sch, wfi, rc, wfe, ut, pj, cg, rs, ar⟩ := job
  constructor <;>
    (cases st <;> cases wfi <;> cases rc <;>
      rcases em with _ | m <;> (try cases m) <;> rfl)

/-- Helper: an ASCII character occupies one UTF-8 byte. -/
theorem utf8Size_of_ascii (c : Char) (h : c.toNat < 128) : c.utf8Size = 1 := by
  unfold Char.utf8Size
  rw [if_pos]
  show c.toNat ≤ 127
  exact Nat.lt_succ_iff.mp h

/-- Helper: the UTF-8 fold under an accumulator, on ASCII characters. -/
theorem foldl_utf8_ascii (l : List Char) (h : ∀ c ∈ l, c.toNat < 128) (a : Nat) :
    l.foldl (fun n c => n + c.utf8Size) a = a + l.length := by
  induction l generalizing a with
  | nil => simp
  | cons c rest ih =>
    simp only [List.foldl_cons, List.length_cons]
    rw [utf8Size_of_ascii c (h c (List.mem_cons_self _ _)),
      ih (fun d hd => h d (List.mem_cons_of_mem _ hd))]
    omega

/-- Helper: on an ASCII string, the Rust byte length is the character
count. -/
theorem rustLen_eq_length (s : String) (h : ∀ c ∈ s.data, c.toNat < 128) :
    rustLen s = s.data.length := by
  unfold rustLen
  rw [foldl_utf8_ascii s.data h 0]
  omega

/-- Helper: distributing an added depth over the array-height maximum. -/
theorem add_jsonHeightList_le (d : Nat) (items : List Json) :
    d + jsonHeightList items ≤ 32 ↔
      d ≤ 32 ∧ ∀ v ∈ items, d + 1 + jsonHeight v ≤ 32 := by
  induction items with
  | nil => simp [jsonHeightList]
  | cons v rest ih =>
    simp only [jsonHeightList, List.mem_cons]
    constructor
    · intro h
      have h1 : 1 + jsonHeight v ≤ max (1 + jsonHeight v) (jsonHeightList rest) :=
        le_max_left _ _
      have h2 : jsonHeightList rest ≤ max (1 + jsonHeight v) (jsonHeightList rest) :=
        le_max_right _ _
      have ihm := ih.mp (by omega)
      refine ⟨by omega, ?_⟩
      rintro w (rfl | hw)
      · omega
      · exact ihm.2 w hw
    · rintro ⟨hd, hall⟩
      have h1 : d + 1 + jsonHeight v ≤ 32 := hall v (Or.inl rfl)
      have h2 : d + jsonHeightList rest ≤ 32 :=
        ih.mpr ⟨hd, fun w hw => hall w (Or.inr hw)⟩
      omega

/-- Helper: the object-field version of `add_jsonHeightList_le`. -/
theorem add_jsonHeightFields_le (d : Nat) (fields : List (String × Json)) :
    d + jsonHeightFields fields ≤ 32 ↔
      d ≤ 32 ∧ ∀ p ∈ fields, d + 1 + jsonHeight p.2 ≤ 32 := by
  induction fields with
  | nil => simp [jsonHeightFields]
  | cons p rest ih =>
    obtain ⟨a, v⟩ := p
    simp only [jsonHeightFields, List.mem_cons]
    constructor
    · intro h
      have h1 : 1 + jsonHeight v ≤ max (1 + jsonHeight v) (jsonHeightFields rest) :=
        le_max_left _ _
      have h2 : jsonHeightFields rest ≤ max (1 + jsonHeight v) (jsonHeightFields rest) :=
        le_max_right _ _
      have ihm := ih.mp (by omega)
      refine ⟨by omega, ?_⟩
      rintro w (rfl | hw)
      · show d + 1 + jsonHeight v ≤ 32
        omega
      · exact ihm.2 w hw
    · rintro ⟨hd, hall⟩
      have h1 : d + 1 + jsonHeight v ≤ 32 := hall (a, v) (Or.inl rfl)
      have h2 : d + jsonHeightFields rest ≤ 32 :=
        ih.mpr ⟨hd, fun w hw => hall w (Or.inr hw)⟩
      omega

mutual

/-- Helper: the source depth check passes at depth `d` exactly when `d` plus
the value's nesting height stays within `MAX_PAYLOAD_DEPTH`. -/
theorem checkDepth_le_iff (v : Json) (d : Nat) :
    checkDepth v d = true ↔ d + jsonHeight v ≤ 32 := by
  cases v with
  | null =>
    have e : checkDepth (.null) d = if d > MAX_PAYLOAD_DEPTH then false else true := rfl
    rw [e]
    by_cases hd : d > MAX_PAYLOAD_DEPTH
    · rw [if_pos hd]
      exact iff_of_false (by simp)
        (by simp only [jsonHeight, MAX_PAYLOAD_DEPTH] at hd ⊢; omega)
    · rw [if_neg hd]
      exact iff_of_true rfl
        (by simp only [jsonHeight, MAX_PAYLOAD_DEPTH] at hd ⊢; omega)
  | bool b =>
    have e : checkDepth (.bool b) d = if d > MAX_PAYLOAD_DEPTH then false else true := rfl
    rw [e]
    by_cases hd : d > MAX_PAYLOAD_DEPTH
    · rw [if_pos hd]
      exact iff_of_false (by simp)
        (by simp only [jsonHeight, MAX_PAYLOAD_DEPTH] at hd ⊢; omega)
    · rw [if_neg hd]
      exact iff_of_true rfl
        (by simp only [jsonHeight, MAX_PAYLOAD_DEPTH] at hd ⊢; omega)
  | num n =>
    have e : checkDepth (.num n) d = if d > MAX_PAYLOAD_DEPTH then false else true := rfl
    rw [e]
    by_cases hd : d > MAX_PAYLOAD_DEPTH
    · rw [if_pos hd]
      exact iff_of_false (by simp)
        (by simp only [jsonHeight, MAX_PAYLOAD_DEPTH] at hd ⊢; omega)
    · rw [if_neg hd]
      exact iff_of_true rfl
        (by simp only [jsonHeight, MAX_PAYLOAD_DEPTH] at hd ⊢; omega)
  | str s =>
    have e : checkDepth (.str s) d = if d > MAX_PAYLOAD_DEPTH then false else true := rfl
    rw [e]
    by_cases hd : d > MAX_PAYLOAD_DEPTH
    · rw [if_pos hd]
      exact iff_of_false (by simp)
        (by simp only [jsonHeight, MAX_PAYLOAD_DEPTH] at hd ⊢; omega)
    · rw [if_neg hd]
      exact iff_of_true rfl
        (by simp only [jsonHeight, MAX_PAYLOAD_DEPTH] at hd ⊢; omega)
  | arr items =>
    rw [checkDepth]
    by_cases hd : d > MAX_PAYLOAD_DEPTH
    · rw [if_pos hd]
      simp only [jsonHeight, MAX_PAYLOAD_DEPTH] at *
      constructor
      · intro h; cases h
      · intro h; omega
    · rw [if_neg hd, checkDepthList_le_iff items (d + 1)]
      simp only [jsonHeight]
      rw [add_jsonHeightList_le d items]
      simp only [MAX_PAYLOAD_DEPTH] at hd
      constructor
      · intro h
        exact ⟨by omega, fun w hw => by have := h w hw; omega⟩
      · rintro ⟨_, h⟩ w hw
        have := h w hw
        omega
  | obj fields =>
    rw [checkDepth]
    by_cases hd : d > MAX_PAYLOAD_DEPTH
    · rw [if_pos hd]
      simp only [jsonHeight, MAX_PAYLOAD_DEPTH] at *
      constructor
      · intro h; cases h
      · intro h; omega
    · rw [if_neg hd, checkDepthFields_le_iff fields (d + 1)]
      simp only [jsonHeight]
      rw [add_jsonHeightFields_le d fields]
      simp only [MAX_PAYLOAD_DEPTH] at hd
      constructor
      · intro h
        exact ⟨by omega, fun w hw => by have := h w hw; omega⟩
      · rintro ⟨_, h⟩ w hw
        have := h w hw
        omega

/-- Helper: array items, elementwise. -/
theorem checkDepthList_le_iff (items : List Json) (d : Nat) :
    checkDepthList items d = true ↔ ∀ v ∈ items, d + jsonHeight v ≤ 32 := by
  cases items with
  | nil => rw [checkDepthList]; simp
  | cons v rest =>
    rw [checkDepthList]
    rw [Bool.and_eq_true, checkDepth_le_iff v d, checkDepthList_le_iff rest d,
      List.forall_mem_cons]

/-- Helper: object fields, elementwise. -/
theorem checkDepthFields_le_iff (fields : List (String × Json)) (d : Nat) :
    checkDepthFields fields d = true ↔ ∀ p ∈ fields, d + jsonHeight p.2 ≤ 32 := by
  cases fields with
  | nil => rw [checkDepthFields]; simp
  | cons p rest =>
    obtain ⟨a, v⟩ := p
    rw [checkDepthFields]
    rw [Bool.and_eq_true, checkDepth_le_iff v d, checkDepthFields_le_iff rest d,
      List.forall_mem_cons]

end

/-- Helper: `validate_request` succeeds exactly when every check passes. -/
theorem validate_ok_iff (req : EnqueueRequest) :
    validate_request req = .ok () ↔
      (¬ req.queue = "" ∧ ¬ rustLen req.queue > MAX_QUEUE_NAME_LEN
       ∧ (req.queue.data.all fun c => rustIsAlphanumeric c || c = '_' || c = '-') = true
       ∧ ¬ req.job_type = "" ∧ ¬ rustLen req.job_type > MAX_JOB_TYPE_LEN
       ∧ ¬ req.subject_key = "" ∧ ¬ rustLen req.subject_key > MAX_SUBJECT_KEY_LEN
       ∧ checkDepth req.payload 0 = true
       ∧ ¬ (req.priority < MIN_PRIORITY ∨ req.priority > MAX_PRIORITY)) := by
  have hok_ne : ∀ (e : AppError), ¬ ((Except.error e : Except AppError Unit) = .ok ()) :=
    fun _ h => Except.noConfusion h
  unfold validate_request
  by_cases h1 : req.queue = ""
  · rw [if_pos h1]
    exact iff_of_false (hok_ne _) (fun hR => hR.1 h1)
  rw [if_neg h1]
  by_cases h2 : rustLen req.queue > MAX_QUEUE_NAME_LEN
  · rw [if_pos h2]
    exact iff_of_false (hok_ne _) (fun hR => hR.2.1 h2)
  rw [if_neg h2]
  by_cases h3 : ¬ (req.queue.data.all fun c => rustIsAlphanumeric c || c = '_' || c = '-') = true
  · rw [if_pos h3]
    exact iff_of_false (hok_ne _) (fun hR => h3 hR.2.2.1)
  rw [if_neg h3]
  by_cases h4 : req.job_type = ""
  · rw [if_pos h4]
    exact iff_of_false (hok_ne _) (fun hR => hR.2.2.2.1 h4)
  rw [if_neg h4]
  by_cases h5 : rustLen req.job_type > MAX_JOB_TYPE_LEN
  · rw [if_pos h5]
    exact iff_of_false (hok_ne _) (fun hR => hR.2.2.2.2.1 h5)
  rw [if_neg h5]
  by_cases h6 : req.subject_key = ""
  · rw [if_pos h6]
    exact iff_of_false (hok_ne _) (fun hR => hR.2.2.2.2.2.1 h6)
  rw [if_neg h6]
  by_cases h7 : rustLen req.subject_key > MAX_SUBJECT_KEY_LEN
  · rw [if_pos h7]
    exact iff_of_false (hok_ne _) (fun hR => hR.2.2.2.2.2.2.1 h7)
  rw [if_neg h7]
  by_cases h8 : ¬ checkDepth req.payload 0 = true
  · have hv : validate_payload_complexity req.payload
        = .error (.validation s!"Payload too deeply nested (max depth: {MAX_PAYLOAD_DEPTH}, exceeded)") := by
      unfold validate_payload_complexity
      rw [if_neg h8]
    rw [hv]
    exact iff_of_false (hok_ne _) (fun hR => h8 hR.2.2.2.2.2.2.2.1)
  have h8' : checkDepth req.payload 0 = true := not_not.mp h8
  have hv : validate_payload_complexity req.payload = .ok () := by
    unfold validate_payload_complexity
    rw [if_pos h8']
  rw [hv]
  by_cases h9 : req.priority < MIN_PRIORITY ∨ req.priority > MAX_PRIORITY
  · rw [if_pos h9]
    exact iff_of_false (hok_ne _) (fun hR => hR.2.2.2.2.2.2.2.2 h9)
  rw [if_neg h9]
  exact iff_of_true rfl
    ⟨h1, h2, not_not.mp h3, h4, h5, h6, h7, h8', h9⟩

/-- C6 amended: for ASCII requests (the only kind the claim's `A-Za-z0-9`
charset is about; Rust's Unicode `char::is_alphanumeric` additionally admits
non-ASCII alphanumerics, and Rust's lengths are UTF-8 bytes), `enqueue`
returns VALIDATION_ERROR — and inserts nothing — exactly when: queue empty,
longer than 64, or containing a character outside `A-Za-z0-9_-`; job_type
empty or longer than 128; subject_key empty or longer than 512 (a NUL
character in subject_key is NOT rejected — the source has no NUL check);
payload nested deeper than 32; or priority outside [−100, 100]. -/
theorem validate_request_characterization (req : EnqueueRequest)
    (hq : ∀ c ∈ req.queue.data, c.toNat < 128)
    (ht : ∀ c ∈ req.job_type.data, c.toNat < 128)
    (hs : ∀ c ∈ req.subject_key.data, c.toNat < 128) :
    ((∃ msg, validate_request req = .error (.validation msg)) ↔
      (req.queue = "" ∨ req.queue.data.length > 64
        ∨ (∃ c ∈ req.queue.data, ¬(rustIsAlphanumeric c = true ∨ c = '_' ∨ c = '-'))
        ∨ req.job_type = "" ∨ req.job_type.data.length > 128
        ∨ req.subject_key = "" ∨ req.subject_key.data.length > 512
        ∨ jsonHeight req.payload > 32
        ∨ req.priority < -100 ∨ req.priority > 100))
    ∧ (∀ e s newId now, validate_request req = .error e →
        executeEnqueue req newId now s = (.error e, s)) := by
  constructor
  · have hcases : validate_request req = .ok ()
        ∨ ∃ msg, validate_request req = .error (.validation msg) := by
      unfold validate_request validate_payload_complexity
      repeat' split
      all_goals try (exact .inl rfl)
      all_goals try (exact .inr ⟨_, rfl⟩)
      all_goals (rename_i e heq; split at heq <;> cases heq <;> exact .inr ⟨_, rfl⟩)
    have hiff : (∃ msg, validate_request req = .error (.validation msg))
        ↔ ¬ (validate_request req = .ok ()) := by
      rcases hcases with hok | ⟨m, herr⟩
      · simp [hok]
      · simp [herr]
    have hcd : checkDepth req.payload 0 = true ↔ jsonHeight req.payload ≤ 32 := by
      rw [checkDepth_le_iff]
      omega
    rw [hiff, validate_ok_iff, rustLen_eq_length req.queue hq,
      rustLen_eq_length req.job_type ht, rustLen_eq_length req.subject_key hs, hcd]
    simp only [MAX_QUEUE_NAME_LEN, MAX_JOB_TYPE_LEN, MAX_SUBJECT_KEY_LEN,
      MIN_PRIORITY, MAX_PRIORITY, List.all_eq_true, Bool.or_eq_true,
      decide_eq_true_iff, not_and_or, not_not, not_forall, not_le, not_lt, not_or]
    simp only [and_assoc, exists_prop]
  · intro e s newId now hval
    unfold executeEnqueue
    rw [hval]

/-- C6 counterexample: the request with `subject_key = "a\x00b"` (a NUL
character) and every other field valid is accepted by `validate_request` —
the claim requires a VALIDATION_ERROR for subject keys containing NUL, but
the source has no NUL check. -/
theorem nul_subject_key_accepted :
    Char.ofNat 0 ∈ reqC6.subject_key.data
    ∧ validate_request reqC6 = .ok () := by
  exact ⟨by decide, rfl⟩

/-- C6 witness: the all-ASCII request with priority 101 is rejected with the
priority message, and `executeEnqueue` leaves the store unchanged. -/
theorem validate_request_characterization_witness :
    executeEnqueue reqC6W "id1" 0 (Store.mk [] []) =
      (.error (.validation msgC6), Store.mk [] []) :=
  (validate_request_characterization reqC6W (by decide) (by decide) (by decide)).2
    (.validation msgC6) (Store.mk [] []) "id1" 0 rfl

/-- C8 counterexample: a job with `schedule_at = some 5` written through the
enqueue transaction's insert (whose `INSERT` binds only the 21 Phase 1/2
columns) reads back with `schedule_at = none`: the round trip is not the
identity on the Phase 3 fields. -/
theorem tx_insert_drops_phase3_counterexample :
    jobC8.schedule_at = some 5
    ∧ (intoJob (txInsertRow jobC8)).schedule_at = none
    ∧ intoJob (txInsertRow jobC8) ≠ jobC8 := by
  refine ⟨rfl, rfl, fun h => ?_⟩
  have h5 := congrArg Job.schedule_at h
  simp [intoJob, txInsertRow, jobC8, Job.new] at h5

/-- Helper: full characterization of `pop_next`: it returns `none` exactly
when no row passes the eligibility filter; otherwise it returns the
post-update snapshot of an eligible row that is minimal in the pop order,
and the store update rewrites exactly the rows carrying that id. -/
theorem pop_next_spec (q : String) (now : Int) (s : Store) :
    ((pop_next q now s).1 = none ↔ ∀ j ∈ s.jobs, ¬ popEligible s q j = true)
    ∧ (∀ j', (pop_next q now s).1 = some j' →
        ∃ r ∈ s.jobs, popEligible s q r = true
          ∧ (∀ b ∈ s.jobs, popEligible s q b = true → popKey r ≤ popKey b)
          ∧ j' = { r with state := .running, started_at := some now }
          ∧ (pop_next q now s).2.jobs
              = s.jobs.map (fun j => if j.id = r.id
                  then { j with state := .running, started_at := some now } else j)) := by
  unfold pop_next
  cases h : (s.jobs.filter (popEligible s q)).argmin popKey with
  | none =>
    refine ⟨⟨fun _ j hj => ?_, fun _ => rfl⟩, fun j' hj' => absurd hj' (by simp)⟩
    have hfil : s.jobs.filter (popEligible s q) = [] := List.argmin_eq_none.mp h
    rw [List.filter_eq_nil_iff] at hfil
    exact hfil j hj
  | some r =>
    have hmem : r ∈ s.jobs.filter (popEligible s q) := List.argmin_mem h
    rw [List.mem_filter] at hmem
    constructor
    · exact ⟨fun habs => absurd habs (by simp),
        fun hall => absurd hmem.2 (hall r hmem.1)⟩
    · intro j' hj'
      have hj2 : some { r with state := .running, started_at := some now } = some j' := hj'
      have hj3 : j' = { r with state := .running, started_at := some now } := by
        injection hj2 with hj2
        exact hj2.symm
      refine ⟨r, hmem.1, hmem.2, ?_, hj3, rfl⟩
      intro b hb hbe
      exact List.le_of_mem_argmin (List.mem_filter.mpr ⟨hb, hbe⟩) h

/-- C2 amended: `pop_next(q)` returns none when no row has `queue = q`,
`state = QUEUED` and generation equal to the maximum generation among all
rows of the same subject in the jobs table (NOT the subjects counter —
`pop_next`'s subquery is `MAX(generation) FROM jobs`, which can differ from
`latest_generation` in states where the counter lags the table); otherwise
it atomically transitions the first such row in the order
`priority DESC, created_at ASC, id ASC` from QUEUED to RUNNING with
`started_at = now` and returns the post-update snapshot. -/
theorem pop_next_characterization (q : String) (now : Int) (s : Store) :
    ((pop_next q now s).1 = none ↔ ∀ j ∈ s.jobs, ¬ popEligible s q j = true)
    ∧ (∀ j', (pop_next q now s).1 = some j' →
        ∃ r ∈ s.jobs, popEligible s q r = true
          ∧ (∀ b ∈ s.jobs, popEligible s q b = true → popKey r ≤ popKey b)
          ∧ j' = { r with state := .running, started_at := some now }
          ∧ (pop_next q now s).2.jobs
              = s.jobs.map (fun j => if j.id = r.id
                  then { j with state := .running, started_at := some now } else j)) :=
  pop_next_spec q now s

/-- C2 counterexample: in `storeC2` the job `jobGen1` (queue "q", QUEUED)
has generation 1 equal to the subject's `latest_generation` counter, so the
claim says `pop_next("q")` returns it — but the code's eligibility compares
against `MAX(generation)` over the jobs table, which is 2 (the DONE row
`jobGen2`), and `pop_next` returns none. -/
theorem pop_skips_counter_matching_row :
    getSubjectGen storeC2 "subj" = some 1
    ∧ jobGen1 ∈ storeC2.jobs
    ∧ jobGen1.queue = "q" ∧ jobGen1.state = .queued ∧ jobGen1.generation = 1
    ∧ (pop_next "q" 5 storeC2).1 = none := by
  refine ⟨rfl, ?_, rfl, rfl, rfl, rfl⟩
  exact List.mem_cons_self _ _

/-- C2 witness: on the one-job store `storeC2W`, `pop_next` returns the job
transitioned to RUNNING, and the characterization's existential holds. -/
theorem pop_next_characterization_witness :
    (pop_next "wq" 7 storeC2W).1 = some { jw with state := .running, started_at := some 7 }
    ∧ ∃ r ∈ storeC2W.jobs, popEligible storeC2W "wq" r = true
        ∧ (∀ b ∈ storeC2W.jobs, popEligible storeC2W "wq" b = true → popKey r ≤ popKey b)
        ∧ ({ jw with state := .running, started_at := some 7 } : Job)
            = { r with state := .running, started_at := some 7 }
        ∧ (pop_next "wq" 7 storeC2W).2.jobs
            = storeC2W.jobs.map (fun j => if j.id = r.id
                then { j with state := .running, started_at := some 7 } else j) :=
  ⟨rfl, (pop_next_characterization "wq" 7 storeC2W).2
    { jw with state := .running, started_at := some 7 } rfl⟩

/-- C10: at most one caller observes a given job's QUEUED → RUNNING
transition. `pop_next` is a single conditional `UPDATE ... RETURNING`
statement, which SQLite executes atomically, so two concurrent pops are
modelled as two successive atomic steps (in either interleaving order,
covered by the universally quantified queues and clock values): whenever
both return a job, the two jobs have distinct ids — the first pop left its
row RUNNING, and the second only selects QUEUED rows. -/
theorem pop_next_no_duplicate_dispatch (q1 q2 : String) (now1 now2 : Int)
    (s : Store) (j1 j2 : Job)
    (h1 : (pop_next q1 now1 s).1 = some j1)
    (h2 : (pop_next q2 now2 (pop_next q1 now1 s).2).1 = some j2) :
    j1.id ≠ j2.id := by
  obtain ⟨r1, hr1mem, hr1elig, _, hj1eq, hstore⟩ := (pop_next_spec q1 now1 s).2 j1 h1
  obtain ⟨r2, hr2mem, hr2elig, _, hj2eq, _⟩ :=
    (pop_next_spec q2 now2 (pop_next q1 now1 s).2).2 j2 h2
  rw [hstore] at hr2mem
  obtain ⟨a, ha, hfa⟩ := List.mem_map.mp hr2mem
  have hq2 : r2.state = .queued := by
    unfold popEligible at hr2elig
    rw [decide_eq_true_iff] at hr2elig
    exact hr2elig.2.1
  by_cases hid : a.id = r1.id
  · rw [if_pos hid] at hfa
    rw [← hfa] at hq2
    simp at hq2
  · rw [if_neg hid] at hfa
    have hid2 : j2.id = r2.id := by rw [hj2eq]
    have hid1 : j1.id = r1.id := by rw [hj1eq]
    intro hcontr
    exact hid (by rw [hfa, ← hid2, ← hcontr, hid1])

/-- C10 witness: two successive pops on the two-job store return the two
distinct jobs. -/
theorem pop_next_no_duplicate_dispatch_witness : ("wa" : String) ≠ "wb" :=
  pop_next_no_duplicate_dispatch "q" "q" 5 6 storeC10
    { jobW1 with state := .running, started_at := some 5 }
    { jobW2 with state := .running, started_at := some 6 } rfl rfl

/-- Helper: `find?` by key commutes with a key-preserving map. -/
theorem find?_fst_map (l : List (String × Int)) (f : String × Int → String × Int)
    (hf : ∀ p, (f p).1 = p.1) (k : String) :
    (l.map f).find? (fun p => p.1 = k) = (l.find? (fun p => p.1 = k)).map f := by
  rw [List.find?_map]
  have hfun : ((fun p : String × Int => decide (p.1 = k)) ∘ f)
      = fun p : String × Int => decide (p.1 = k) := by
    funext p
    simp [Function.comp, hf p]
  rw [hfun]

/-- Helper: after `get_latest_generation`, the subject row exists, holds the
returned counter value, and the jobs table is untouched. -/
theorem get_latest_generation_entry (key : String) (s : Store) :
    ∃ p, (get_latest_generation key s).2.subjects.find? (fun q => q.1 = key) = some p
      ∧ p.1 = key ∧ p.2 = (get_latest_generation key s).1
      ∧ (get_latest_generation key s).2.jobs = s.jobs := by
  unfold get_latest_generation
  cases hf : s.subjects.find? (fun p => p.1 = key) with
  | some p =>
    refine ⟨p, hf, ?_, rfl, rfl⟩
    have := List.find?_some hf
    simpa using this
  | none =>
    refine ⟨(key, 0), ?_, rfl, rfl, rfl⟩
    rw [List.find?_append, hf]
    simp [List.find?]

/-- Helper: `mark_superseded` drives the subject counter to
`below_generation`. -/
theorem getSubjectGen_mark_superseded (key : String) (below now : Int) (s : Store)
    (h : ∃ p, s.subjects.find? (fun q => q.1 = key) = some p ∧ p.1 = key) :
    getSubjectGen (mark_superseded key below now s) key = some below := by
  obtain ⟨p, hp, hpk⟩ := h
  unfold getSubjectGen mark_superseded
  rw [find?_fst_map _ _ (fun p => by split <;> rfl) key, hp]
  simp [hpk]

/-- C3: after a successfully committed enqueue for subject S — from any
store satisfying the generation invariant that no job of S exceeds the
subjects counter — at most one job of S is QUEUED; every previously QUEUED
job of S (all of lower generation) is SUPERSEDED with `finished_at = now`;
the counter equals the new job's generation `g + 1`; and the newly inserted
job is QUEUED at that generation. -/
theorem enqueue_supersede_invariant (req : EnqueueRequest) (newId : String) (now : Int)
    (s post : Store)
    (hok : validate_request req = .ok ())
    (hgen : ∀ j ∈ s.jobs, j.subject_key = req.subject_key →
        j.generation ≤ (get_latest_generation req.subject_key s).1)
    (hrun : (executeEnqueue req newId now s).2 = post) :
    ((post.jobs.filter (fun j =>
        j.subject_key = req.subject_key ∧ j.state = .queued)).length ≤ 1)
    ∧ (∀ j ∈ s.jobs, j.subject_key = req.subject_key → j.state = .queued →
        j.generation < (get_latest_generation req.subject_key s).1 + 1
        ∧ ∃ j' ∈ post.jobs, j'.id = j.id ∧ j'.generation = j.generation
            ∧ j'.state = .superseded ∧ j'.finished_at = some now)
    ∧ getSubjectGen post req.subject_key
        = some ((get_latest_generation req.subject_key s).1 + 1)
    ∧ ∃ jn ∈ post.jobs, jn.id = newId ∧ jn.state = .queued
        ∧ jn.generation = (get_latest_generation req.subject_key s).1 + 1 := by
  obtain ⟨p, hfind, hpk, hpv, hjobs⟩ := get_latest_generation_entry req.subject_key s
  set g := (get_latest_generation req.subject_key s).1 with hgdef
  set J : Job :=
    { Job.new newId now req.queue req.job_type req.subject_key (g + 1) req.payload
      with priority := req.priority } with hJdef
  have hpost : post
      = mark_superseded req.subject_key (g + 1) now
          (insertJob J (get_latest_generation req.subject_key s).2) := by
    rw [← hrun]
    unfold executeEnqueue
    rw [hok]
  set F : Job → Job := fun j =>
    if j.subject_key = req.subject_key ∧ j.generation < g + 1 ∧ j.state = .queued then
      { j with state := .superseded, finished_at := some now }
    else j with hFdef
  have hpjobs : post.jobs = (s.jobs ++ [J]).map F := by
    rw [hpost]
    unfold mark_superseded insertJob
    rw [hjobs]
  have hJgen : J.generation = g + 1 := rfl
  have hFJ : F J = J := by
    rw [hFdef]
    dsimp only
    rw [if_neg]
    rintro ⟨-, hlt, -⟩
    rw [hJgen] at hlt
    omega
  refine ⟨?_, ?_, ?_, ?_⟩
  · rw [hpjobs, ← List.countP_eq_length_filter, List.countP_map, List.countP_append]
    have hz : List.countP ((fun j => decide (j.subject_key = req.subject_key
        ∧ j.state = .queued)) ∘ F) s.jobs = 0 := by
      rw [List.countP_eq_zero]
      intro j hj
      simp only [Function.comp_apply, decide_eq_true_iff, not_and]
      by_cases hsub : j.subject_key = req.subject_key
      · have hle := hgen j hj hsub
        by_cases hq : j.state = .queued
        · rw [hFdef]
          dsimp only
          rw [if_pos ⟨hsub, by omega, hq⟩]
          intro _ hst
          exact absurd hst (by simp)
        · rw [hFdef]
          dsimp only
          rw [if_neg (fun hc => hq hc.2.2)]
          intro _ hst
          exact hq hst
      · rw [hFdef]
        dsimp only
        rw [if_neg (fun hc => hsub hc.1)]
        intro hs
        exact absurd hs hsub
    rw [hz]
    have := List.countP_le_length
      (p := (fun j => decide (j.subject_key = req.subject_key ∧ j.state = .queued)) ∘ F)
      (l := [J])
    simpa using this
  · intro j hj hsub hq
    have hle := hgen j hj hsub
    have hlt : j.generation < g + 1 := by omega
    refine ⟨hlt, { j with state := .superseded, finished_at := some now }, ?_, rfl, rfl, rfl, rfl⟩
    rw [hpjobs]
    apply List.mem_map.mpr
    refine ⟨j, List.mem_append_left _ hj, ?_⟩
    rw [hFdef]
    dsimp only
    rw [if_pos ⟨hsub, hlt, hq⟩]
  · rw [hpost]
    apply getSubjectGen_mark_superseded
    exact ⟨p, hfind, hpk⟩
  · refine ⟨J, ?_, rfl, rfl, hJgen⟩
    rw [hpjobs]
    apply List.mem_map.mpr
    exact ⟨J, List.mem_append_right _ (List.mem_singleton_self J), hFJ⟩

/-- C3 witness: enqueueing into the empty store yields exactly one QUEUED
job of the subject at generation 1, with the counter at 1. -/
theorem enqueue_supersede_invariant_witness :
    (((executeEnqueue reqC3 "n1" 9 (Store.mk [] [])).2.jobs.filter (fun j =>
        j.subject_key = reqC3.subject_key ∧ j.state = .queued)).length ≤ 1)
    ∧ getSubjectGen (executeEnqueue reqC3 "n1" 9 (Store.mk [] [])).2 "s3" = some 1 := by
  have h := enqueue_supersede_invariant reqC3 "n1" 9 (Store.mk [] [])
    (executeEnqueue reqC3 "n1" 9 (Store.mk [] [])).2 rfl
    (by intro j hj; exact absurd hj (List.not_mem_nil j)) rfl
  exact ⟨h.1, h.2.2.1⟩

end Semantica
